import Mathlib

/-!
Verification of the Meal Receipts Tracker API (`src/main.py`).

The FastAPI service is shallowly embedded: each route handler becomes a pure
Lean function over an explicit model of the remote store, returning an
`Except HttpError` result together with the list of store calls it issued.
Python floats are modelled as exact rationals (`ℚ`); Python `round`
(half-even rounding) is modelled by `pyRound0`/`round2`; calendar dates are triples of
naturals compared lexicographically, matching comparison of ISO-8601 date
strings on valid dates.
-/

set_option autoImplicit false

namespace MealTracker

/-- A calendar date, as used by `datetime.date`: year, month, day. -/
structure Date where
  year : Nat
  month : Nat
  day : Nat
deriving DecidableEq, BEq, Repr

/-- Strict lexicographic order on dates; on valid dates this agrees with the
order of their ISO-8601 strings, which is how the store compares the `date`
column in the `gte`/`lt` range filters. -/
def dateLt (a b : Date) : Bool :=
  decide (a.year < b.year) ||
    (decide (a.year = b.year) &&
      (decide (a.month < b.month) || (decide (a.month = b.month) && decide (a.day < b.day))))

/-- Non-strict lexicographic order on dates. -/
def dateLe (a b : Date) : Bool :=
  dateLt a b || a == b

/-- Left-pad the decimal rendering of `n` with zeros to width `w`. -/
def padNum (w : Nat) (n : Nat) : String :=
  let s := toString n
  if s.length < w then String.mk (List.replicate (w - s.length) '0') ++ s else s

/-- ISO-8601 rendering of a date, as produced by `date.isoformat()`. -/
def dateIso (d : Date) : String :=
  padNum 4 d.year ++ "-" ++ padNum 2 d.month ++ "-" ++ padNum 2 d.day

/-- Rendering of a date by `strftime` with the format string `%Y-%m`,
used for the `month` field of the summary response. -/
def fmtYM (d : Date) : String :=
  padNum 4 d.year ++ "-" ++ padNum 2 d.month

/-- Numeric value of an ASCII digit character, `Option.none` otherwise. -/
def digit? (c : Char) : Option Nat :=
  if c.isDigit then some (c.toNat - 48) else Option.none

/-- Model of `datetime.strptime(month, "%Y-%m")` followed by `.date()`:
CPython compiles `%Y` to the regular expression `\d\d\d\d` (exactly four
digits) and `%m` to `1[0-2]|0[1-9]|[1-9]` (one or two digits, value 1–12),
anchors the match at both ends, and the `date` constructor then rejects
year 0 (`MINYEAR` is 1).  Returns the parsed (year, month) pair on success. -/
def strptimeYM (s : String) : Option (Nat × Nat) :=
  match s.toList with
  | [y1, y2, y3, y4, '-', m1] => do
      let a ← digit? y1
      let b ← digit? y2
      let c ← digit? y3
      let d ← digit? y4
      let m ← digit? m1
      let year := 1000 * a + 100 * b + 10 * c + d
      if 1 ≤ m ∧ 1 ≤ year then pure (year, m) else Option.none
  | [y1, y2, y3, y4, '-', m1, m2] => do
      let a ← digit? y1
      let b ← digit? y2
      let c ← digit? y3
      let d ← digit? y4
      let mA ← digit? m1
      let mB ← digit? m2
      let year := 1000 * a + 100 * b + 10 * c + d
      let m := 10 * mA + mB
      if 1 ≤ m ∧ m ≤ 12 ∧ 1 ≤ year then pure (year, m) else Option.none
  | _ => Option.none

/-- An HTTP error response, as raised via `HTTPException(status_code, detail)`. -/
structure HttpError where
  status : Nat
  detail : String
deriving DecidableEq, Repr

/-- The 400 error raised by `parse_month` on a malformed month string. -/
def invalidMonthErr : HttpError :=
  ⟨400, "Invalid month format. Use YYYY-MM"⟩

/-- The 500 error raised by `require_supabase` when the store client is unset. -/
def supabaseUnsetErr : HttpError :=
  ⟨500, "Supabase not configured. Set SUPABASE_URL and SUPABASE_KEY environment variables."⟩

/-- End-of-month computation from `parse_month`: the first day of the
following month, with the December→January year rollover. -/
def monthEnd (start : Date) : Date :=
  if start.month == 12 then ⟨start.year + 1, 1, 1⟩ else ⟨start.year, start.month + 1, 1⟩

/-- Model of `parse_month`: `if not month` (absent or empty string) uses the
current UTC date truncated to the first of the month, otherwise the string is
parsed with `strptime("%Y-%m")` and truncated with `.replace(day=1)`; a parse
failure raises the 400 error.  The pair (first day, first day of next month)
is returned. -/
def parse_month (today : Date) (month : Option String) : Except HttpError (Date × Date) :=
  let startE : Except HttpError Date :=
    match month with
    | Option.none => Except.ok ⟨today.year, today.month, 1⟩
    | some s =>
      if s = "" then Except.ok ⟨today.year, today.month, 1⟩
      else
        match strptimeYM s with
        | some (y, m) => Except.ok ⟨y, m, 1⟩
        | Option.none => Except.error invalidMonthErr
  match startE with
  | Except.ok start => Except.ok (start, monthEnd start)
  | Except.error e => Except.error e

/-- Python `round(q)` to an integer: round half to even,
on the exact rational model of the float value. -/
def pyRound0 (q : ℚ) : ℤ :=
  let f := q.floor
  let frac := q - (f : ℚ)
  if frac < 1 / 2 then f
  else if 1 / 2 < frac then f + 1
  else if f % 2 = 0 then f else f + 1

/-- Python `round(q, 2)`: half-even rounding to two decimal places. -/
def round2 (q : ℚ) : ℚ :=
  (pyRound0 (q * 100) : ℚ) / 100

/-- A JSON scalar held in a row dictionary returned by the store: SQL `NULL`
becomes Python `None`, text becomes `str`, and numbers (amounts) become
floats, modelled as exact rationals. -/
inductive PyVal where
  | null
  | str (s : String)
  | num (q : ℚ)
deriving DecidableEq, Repr

/-- Smallest exponent `k ≤ 17` such that `q * 10 ^ k` is an integer, if any. -/
def decExp (q : ℚ) : Option Nat :=
  (List.range 18).find? (fun k => (q * (10 : ℚ) ^ k).den == 1)

/-- Decimal rendering of a rational, modelling Python `str()` on a float
amount (the model renders the exact value; an integral value gets a
trailing `.0` as `str(12.0) = "12.0"` does). -/
def ratStr (q : ℚ) : String :=
  match decExp q with
  | some 0 => toString q.num ++ ".0"
  | some (k + 1) =>
      let m := (q * (10 : ℚ) ^ (k + 1)).num
      let sign := if m < 0 then "-" else ""
      let digits := toString m.natAbs
      let digits :=
        if digits.length ≤ k + 1 then
          String.mk (List.replicate (k + 2 - digits.length) '0') ++ digits
        else digits
      sign ++ digits.take (digits.length - (k + 1)) ++ "." ++ digits.drop (digits.length - (k + 1))
  | Option.none => toString q.num ++ "/" ++ toString q.den

/-- Python `str()` applied to a row value inside the f-string:
`str(None)` is the four-character string `"None"`. -/
def pyStr : PyVal → String
  | PyVal.null => "None"
  | PyVal.str s => s
  | PyVal.num q => ratStr q

/-- A row dictionary as returned by a store `select`: association list from
column name to JSON scalar. -/
abbrev Row := List (String × PyVal)

/-- Python dictionary lookup `row[k]` as an option: the value stored at key
`k`, which may itself be `None`. -/
def lookupRow (row : Row) (k : String) : Option PyVal :=
  (row.find? (fun p => p.1 == k)).map (fun p => p.2)

/-- Model of the f-string fragment `row.get(k, default)` with default the
empty string: an absent key renders as the empty string, while a present
value is rendered by `str()` (so a present `None` renders as `"None"`). -/
def rowGet (row : Row) (k : String) : String :=
  match lookupRow row k with
  | some v => pyStr v
  | Option.none => ""

/-- The CSV header line emitted by `export_csv`. -/
def csvHeader : String := "type,date,meal,amount,merchant,note"

/-- The CSV line built for one receipt row (lines 269–271 of `main.py`). -/
def receiptLine (row : Row) : String :=
  "receipt," ++ rowGet row "date" ++ "," ++ rowGet row "meal_type" ++ "," ++
    rowGet row "amount" ++ "," ++ rowGet row "merchant" ++ "," ++ rowGet row "note"

/-- The CSV line built for one advance row (lines 272–275 of `main.py`):
the meal and merchant columns are left empty. -/
def advanceLine (row : Row) : String :=
  "advance," ++ rowGet row "date" ++ ",," ++ rowGet row "amount" ++ ",," ++ rowGet row "note"

/-- The list `lines` built by `export_csv`: the header, then one line per
fetched receipt row, then one line per fetched advance row. -/
def exportCsvLines (r a : List Row) : List String :=
  csvHeader :: (r.map receiptLine ++ a.map advanceLine)

/-- The CSV body `"\n".join(lines) + "\n"`. -/
def exportCsvText (r a : List Row) : String :=
  String.intercalate "\n" (exportCsvLines r a) ++ "\n"

/-- The body of `POST /api/receipt` (`ReceiptIn` in `main.py`).  The same
shape also serves as the stored `receipts` table row; the server-assigned
`id` and `created_at` fields are omitted since no claim mentions them. -/
structure ReceiptIn where
  date : Date
  meal_type : String
  amount : ℚ
  merchant : Option String
  note : Option String
  image_url : Option String
deriving DecidableEq, Repr

/-- The regular expression constraint `Field(pattern = r"^(lunch|dinner)$")`
on `meal_type`: a case-sensitive exact match. -/
def matchesMealPattern (s : String) : Bool :=
  s == "lunch" || s == "dinner"

/-- The `normalize_meal_type` validator: lowercase, then require membership
in `("lunch", "dinner")`. -/
def normalize_meal_type (v : String) : Except String String :=
  let v := v.toLower
  if v == "lunch" || v == "dinner" then Except.ok v
  else Except.error "meal_type must be lunch or dinner"

/-- Pydantic v2 validation of a `ReceiptIn` body.  The code targets pydantic
v2 (`model_dump`, `Field(pattern=...)`), where the core-schema constraints —
the `pattern` on `meal_type` and `gt=0` on `amount` — run first, and the
deprecated v1-style `@validator` (mode `after`) runs only on values that
already passed them.  A validation failure surfaces as a 422 client error
before the route handler runs. -/
def validateReceiptIn (raw : ReceiptIn) : Except String ReceiptIn :=
  if !matchesMealPattern raw.meal_type then
    Except.error "String should match pattern (lunch|dinner)"
  else if raw.amount ≤ 0 then
    Except.error "Input should be greater than 0"
  else
    match normalize_meal_type raw.meal_type with
    | Except.ok v => Except.ok { raw with meal_type := v }
    | Except.error e => Except.error e

/-- The body of `POST /api/advance` (`AdvanceIn` in `main.py`), also used
as the stored `advances` table row. -/
structure AdvanceIn where
  date : Date
  amount : ℚ
  note : Option String
deriving DecidableEq, Repr

/-- Pydantic validation of an `AdvanceIn` body: only the `gt=0` constraint. -/
def validateAdvanceIn (raw : AdvanceIn) : Except String AdvanceIn :=
  if raw.amount ≤ 0 then Except.error "Input should be greater than 0"
  else Except.ok raw

/-- The value of `r.data` after a `sum_amounts` RPC call: `None`, a list of
row dictionaries whose values are SQL numbers or `NULL`, or some other JSON
value (the `isinstance(r.data, list)` test in the code distinguishes these). -/
inductive RpcData where
  | null
  | list (rows : List (List (String × Option ℚ)))
  | other
deriving DecidableEq, Repr

/-- The guard on lines 188 and 200 of `main.py`: `r.data is not None and
isinstance(r.data, list) and len(r.data) > 0 and "sum" in r.data[0]`. -/
def rpcUsable : RpcData → Bool
  | RpcData.list (row0 :: _) => (row0.find? (fun p => p.1 == "sum")).isSome
  | _ => false

/-- The value `float(r.data[0]["sum"] or 0)` read when the guard holds:
a `NULL` (or zero) sum yields `0.0`. -/
def rpcSumValue : RpcData → ℚ
  | RpcData.list (row0 :: _) =>
      match row0.find? (fun p => p.1 == "sum") with
      | some (_, some q) => q
      | _ => 0
  | _ => 0

/-- The remote store: the two tables plus the behavior of the `sum_amounts`
RPC as a function of its three arguments. -/
structure Store where
  receipts : List ReceiptIn
  advances : List AdvanceIn
  rpc : String → Date → Date → RpcData

/-- One store operation issued by an endpoint, recorded in order. -/
inductive StoreCall where
  | rpcSum (table : String)
  | selectAmounts (table : String)
  | selectMealAmounts (meal : String)
  | selectRows (table : String)
  | selectExport (table : String)
  | insertRow (table : String)
deriving DecidableEq, Repr

/-- Membership of a date in the half-open range `[st, en)`, as expressed by
the `gte("date", start)` / `lt("date", end)` filters. -/
def inRange (st en d : Date) : Bool :=
  dateLe st d && dateLt d en

/-- The receipts rows matching the date-range filter. -/
def receiptsInRange (store : Store) (st en : Date) : List ReceiptIn :=
  store.receipts.filter (fun r => inRange st en r.date)

/-- The advances rows matching the date-range filter. -/
def advancesInRange (store : Store) (st en : Date) : List AdvanceIn :=
  store.advances.filter (fun a => inRange st en a.date)

/-- The in-process fallback sum for the receipts table:
`sum(float(x["amount"]) for x in (r2.data or []))`. -/
def inProcessReceiptsSum (store : Store) (st en : Date) : ℚ :=
  ((receiptsInRange store st en).map (fun r => r.amount)).sum

/-- The in-process fallback sum for the advances table. -/
def inProcessAdvancesSum (store : Store) (st en : Date) : ℚ :=
  ((advancesInRange store st en).map (fun a => a.amount)).sum

/-- The meal-type breakdown sum: rows filtered by `eq("meal_type", meal)`
plus the date range, summed client-side. -/
def mealSum (store : Store) (st en : Date) (meal : String) : ℚ :=
  ((store.receipts.filter (fun r => r.meal_type == meal && inRange st en r.date)).map
    (fun r => r.amount)).sum

/-- The receipts sum the summary endpoint actually uses: the RPC value when
the guard holds, the in-process fallback otherwise. -/
def receiptsSumUsed (store : Store) (st en : Date) : ℚ :=
  if rpcUsable (store.rpc "receipts" st en) then rpcSumValue (store.rpc "receipts" st en)
  else inProcessReceiptsSum store st en

/-- The advances sum the summary endpoint actually uses. -/
def advancesSumUsed (store : Store) (st en : Date) : ℚ :=
  if rpcUsable (store.rpc "advances" st en) then rpcSumValue (store.rpc "advances" st en)
  else inProcessAdvancesSum store st en

/-- Sort receipts rows ascending by date (`order("date", desc=False)`). -/
def sortReceipts (l : List ReceiptIn) : List ReceiptIn :=
  l.insertionSort (fun x y => dateLe x.date y.date = true)

/-- Sort advances rows ascending by date. -/
def sortAdvances (l : List AdvanceIn) : List AdvanceIn :=
  l.insertionSort (fun x y => dateLe x.date y.date = true)

/-- Handler of `POST /api/receipt` on an already-validated payload:
`require_supabase`, then insert and return the inserted row.  The store
insert is modelled as succeeding and echoing the inserted row, so the
`result.data` emptiness check in the code is not reachable in the model;
no claim depends on that branch.  Returns the response, the new store
contents and the store calls issued. -/
def create_receipt (connected : Bool) (store : Store) (p : ReceiptIn) :
    Except HttpError ReceiptIn × Store × List StoreCall :=
  if connected then
    (Except.ok p, { store with receipts := store.receipts ++ [p] },
      [StoreCall.insertRow "receipts"])
  else
    (Except.error supabaseUnsetErr, store, [])

/-- Handler of `POST /api/advance` on an already-validated payload. -/
def create_advance (connected : Bool) (store : Store) (p : AdvanceIn) :
    Except HttpError AdvanceIn × Store × List StoreCall :=
  if connected then
    (Except.ok p, { store with advances := store.advances ++ [p] },
      [StoreCall.insertRow "advances"])
  else
    (Except.error supabaseUnsetErr, store, [])

/-- The full `POST /api/receipt` pipeline: FastAPI validates the body first
(a 422 on failure, before the handler and hence before any store call),
then the handler runs. -/
def post_receipt_endpoint (connected : Bool) (store : Store) (raw : ReceiptIn) :
    Except HttpError ReceiptIn × Store × List StoreCall :=
  match validateReceiptIn raw with
  | Except.error msg => (Except.error ⟨422, msg⟩, store, [])
  | Except.ok p => create_receipt connected store p

/-- Handler of `GET /api/receipts`: `require_supabase`, `parse_month`, then
one range-filtered, date-ordered select. -/
def list_receipts (connected : Bool) (store : Store) (today : Date) (month : Option String) :
    Except HttpError (List ReceiptIn) × List StoreCall :=
  if connected then
    match parse_month today month with
    | Except.error e => (Except.error e, [])
    | Except.ok (st, en) =>
        (Except.ok (sortReceipts (receiptsInRange store st en)), [StoreCall.selectRows "receipts"])
  else (Except.error supabaseUnsetErr, [])

/-- Handler of `GET /api/advances`. -/
def list_advances (connected : Bool) (store : Store) (today : Date) (month : Option String) :
    Except HttpError (List AdvanceIn) × List StoreCall :=
  if connected then
    match parse_month today month with
    | Except.error e => (Except.error e, [])
    | Except.ok (st, en) =>
        (Except.ok (sortAdvances (advancesInRange store st en)), [StoreCall.selectRows "advances"])
  else (Except.error supabaseUnsetErr, [])

/-- The JSON body returned by `GET /api/summary`. -/
structure Summary where
  month : String
  receipts_total : ℚ
  advances_total : ℚ
  lunch_total : ℚ
  dinner_total : ℚ
  net : ℚ
deriving DecidableEq, Repr

/-- Handler of `GET /api/summary` (lines 160–240 of `main.py`):
`require_supabase`, `parse_month`, the two `sum_amounts` RPC calls, the
per-table fallback select when the RPC result is unusable, the two
meal-type breakdown selects, and the response with all totals rounded to
two decimals — `net` being rounded from the difference of the unrounded
sums. -/
def monthly_summary (connected : Bool) (store : Store) (today : Date) (month : Option String) :
    Except HttpError Summary × List StoreCall :=
  if connected then
    match parse_month today month with
    | Except.error e => (Except.error e, [])
    | Except.ok (st, en) =>
        let receipts_sum := receiptsSumUsed store st en
        let advances_sum := advancesSumUsed store st en
        (Except.ok
          { month := fmtYM st
            receipts_total := round2 receipts_sum
            advances_total := round2 advances_sum
            lunch_total := round2 (mealSum store st en "lunch")
            dinner_total := round2 (mealSum store st en "dinner")
            net := round2 (receipts_sum - advances_sum) },
         [StoreCall.rpcSum "receipts", StoreCall.rpcSum "advances"] ++
           (if rpcUsable (store.rpc "receipts" st en) then [] else [StoreCall.selectAmounts "receipts"]) ++
           (if rpcUsable (store.rpc "advances" st en) then [] else [StoreCall.selectAmounts "advances"]) ++
           [StoreCall.selectMealAmounts "lunch", StoreCall.selectMealAmounts "dinner"])
  else (Except.error supabaseUnsetErr, [])

/-- Conversion of an `Option String` column value to the JSON scalar the
store returns for it: `NULL` for a missing value. -/
def optStr : Option String → PyVal
  | some s => PyVal.str s
  | Option.none => PyVal.null

/-- The row dictionary returned by the export select
`select("date,meal_type,amount,merchant,note")` for one receipt. -/
def receiptToRow (r : ReceiptIn) : Row :=
  [("date", PyVal.str (dateIso r.date)), ("meal_type", PyVal.str r.meal_type),
   ("amount", PyVal.num r.amount), ("merchant", optStr r.merchant), ("note", optStr r.note)]

/-- The row dictionary returned by the export select
`select("date,amount,note")` for one advance. -/
def advanceToRow (a : AdvanceIn) : Row :=
  [("date", PyVal.str (dateIso a.date)), ("amount", PyVal.num a.amount), ("note", optStr a.note)]

/-- Handler of `GET /api/export.csv`: `require_supabase`, `parse_month`, the
two range-filtered date-ordered selects, then the CSV body. -/
def export_csv (connected : Bool) (store : Store) (today : Date) (month : Option String) :
    Except HttpError String × List StoreCall :=
  if connected then
    match parse_month today month with
    | Except.error e => (Except.error e, [])
    | Except.ok (st, en) =>
        let r := (sortReceipts (receiptsInRange store st en)).map receiptToRow
        let a := (sortAdvances (advancesInRange store st en)).map advanceToRow
        (Except.ok (exportCsvText r a),
         [StoreCall.selectExport "receipts", StoreCall.selectExport "advances"])
  else (Except.error supabaseUnsetErr, [])

/-- The literal YYYY-MM shape named by the spec: four digits, a dash, and a
two-digit month between 01 and 12.  Stated from the words of the spec, to be
compared with what `strptimeYM` (the code) actually accepts. -/
def isYYYYMM (s : String) : Bool :=
  match s.toList with
  | [a, b, c, d, '-', e, f] =>
      a.isDigit && b.isDigit && c.isDigit && d.isDigit && e.isDigit && f.isDigit &&
        (Nat.ble 1 (10 * (e.toNat - 48) + (f.toNat - 48)) &&
          Nat.ble (10 * (e.toNat - 48) + (f.toNat - 48)) 12)
  | _ => false

/-- A store with empty tables whose RPC always returns `None` for `r.data`. -/
def emptyStore : Store :=
  ⟨[], [], fun _ _ _ => RpcData.null⟩

/-- A store holding a single lunch receipt of 12.5 dated 2024-03-05, whose
RPC always returns `None`, forcing the in-process fallback. -/
def fallbackStore : Store :=
  ⟨[⟨⟨2024, 3, 5⟩, "lunch", 25 / 2, Option.none, Option.none, Option.none⟩], [],
   fun _ _ _ => RpcData.null⟩

/-- A store whose RPC reports sum 0.024 for the receipts table and 0.016 for
the advances table. -/
def rpcStore : Store :=
  ⟨[], [],
   fun t _ _ => RpcData.list [[("sum", some (if t == "receipts" then 24 / 1000 else 16 / 1000))]]⟩

/-- A store whose RPC returns one row with a NULL sum for both tables. -/
def nullSumStore : Store :=
  ⟨[], [], fun _ _ _ => RpcData.list [[("sum", Option.none)]]⟩

/-- Helper: `monthEnd` always lands on the first day of a month. -/
theorem monthEnd_day (d : Date) : (monthEnd d).day = 1 := by
  unfold monthEnd
  split <;> rfl

/-- Helper: every date strictly precedes the `monthEnd` computed from it. -/
theorem dateLt_monthEnd (d : Date) : dateLt d (monthEnd d) = true := by
  unfold monthEnd
  split
  · simp only [dateLt, Bool.or_eq_true, Bool.and_eq_true, decide_eq_true_eq]
    exact Or.inl (Nat.lt_succ_self _)
  · simp only [dateLt, Bool.or_eq_true, Bool.and_eq_true, decide_eq_true_eq]
    exact Or.inr ⟨trivial, Or.inl (Nat.lt_succ_self _)⟩

/-- Helper: any successful `parse_month` result is of the form
(first of some month, `monthEnd` of it). -/
theorem parse_month_start_shape (today : Date) (month : Option String) (st en : Date)
    (h : parse_month today month = Except.ok (st, en)) :
    st.day = 1 ∧ en = monthEnd st := by
  cases month with
  | none =>
      simp only [parse_month, Except.ok.injEq, Prod.mk.injEq] at h
      obtain ⟨h1, h2⟩ := h
      subst h1
      subst h2
      exact ⟨rfl, rfl⟩
  | some s =>
      by_cases hs : s = ""
      · subst hs
        rw [parse_month, if_pos rfl] at h
        simp only [Except.ok.injEq, Prod.mk.injEq] at h
        obtain ⟨h1, h2⟩ := h
        subst h1
        subst h2
        exact ⟨rfl, rfl⟩
      · cases hys : strptimeYM s with
        | none =>
            rw [parse_month, if_neg hs, hys] at h
            exact Except.noConfusion h
        | some ym =>
            obtain ⟨y, m⟩ := ym
            rw [parse_month, if_neg hs, hys] at h
            simp only [Except.ok.injEq, Prod.mk.injEq] at h
            obtain ⟨h1, h2⟩ := h
            subst h1
            subst h2
            exact ⟨rfl, rfl⟩

/-- C10: for every input on which `parse_month` succeeds (a parsed month
string or the current-month default), the returned pair (start, end)
satisfies start.day = 1, end.day = 1 and start < end: a non-empty half-open
interval delimited by first days of months. -/
theorem parse_month_halfopen_invariant (today : Date) (month : Option String) (st en : Date)
    (h : parse_month today month = Except.ok (st, en)) :
    st.day = 1 ∧ en.day = 1 ∧ dateLt st en = true := by
  obtain ⟨h1, h2⟩ := parse_month_start_shape today month st en h
  subst h2
  exact ⟨h1, monthEnd_day st, dateLt_monthEnd st⟩

/-- Witness for C10 at today = 2024-05-17 and month = "2024-02". -/
theorem parse_month_halfopen_invariant_witness :
    (⟨2024, 2, 1⟩ : Date).day = 1 ∧ (⟨2024, 3, 1⟩ : Date).day = 1 ∧
      dateLt ⟨2024, 2, 1⟩ ⟨2024, 3, 1⟩ = true :=
  parse_month_halfopen_invariant ⟨2024, 5, 17⟩ (some "2024-02") ⟨2024, 2, 1⟩ ⟨2024, 3, 1⟩ rfl

/-- C6: `parse_month` maps "2024-02" to [2024-02-01, 2024-03-01) and
"2024-12" to [2024-12-01, 2025-01-01); in general every accepted month
string yields (first day of that month, first day of the following month),
with the December-to-January rollover. -/
theorem parse_month_month_ranges (today : Date) :
    parse_month today (some "2024-02") = Except.ok (⟨2024, 2, 1⟩, ⟨2024, 3, 1⟩) ∧
    parse_month today (some "2024-12") = Except.ok (⟨2024, 12, 1⟩, ⟨2025, 1, 1⟩) ∧
    ∀ (s : String) (y m : Nat), strptimeYM s = some (y, m) →
      parse_month today (some s) =
        Except.ok (⟨y, m, 1⟩, if m == 12 then ⟨y + 1, 1, 1⟩ else ⟨y, m + 1, 1⟩) := by
  refine ⟨rfl, rfl, ?_⟩
  intro s y m h
  have hne : ¬ s = "" := by
    intro hs
    subst hs
    simp [strptimeYM] at h
  simp [parse_month, hne, h, monthEnd]

/-- Witness for C6 at today = 2024-05-17 and month string "2024-07". -/
theorem parse_month_month_ranges_witness :
    parse_month ⟨2024, 5, 17⟩ (some "2024-07") = Except.ok (⟨2024, 7, 1⟩, ⟨2024, 8, 1⟩) := by
  have h := (parse_month_month_ranges ⟨2024, 5, 17⟩).2.2 "2024-07" 2024 7 rfl
  simpa using h

/-- C7: the CSV export consists of exactly the header line
`type,date,meal,amount,merchant,note` followed by one row per fetched
receipt and one row per fetched advance, so the line count is
(#receipts + #advances) + 1. -/
theorem export_rows_count (r a : List Row) :
    (exportCsvLines r a).length = r.length + a.length + 1 ∧
    (exportCsvLines r a).head? = some csvHeader ∧
    csvHeader = "type,date,meal,amount,merchant,note" ∧
    exportCsvText r a = String.intercalate "\n" (exportCsvLines r a) ++ "\n" := by
  refine ⟨?_, rfl, rfl, rfl⟩
  simp [exportCsvLines]

/-- C1: evaluation of the validation model at the failing input.  The claim
(and the spec example) say a payload with meal_type "LUNCH" passes
validation and is stored lowercased; in the code the pydantic pattern
constraint `^(lunch|dinner)$` is checked case-sensitively before the
lowercasing validator runs, so "LUNCH" is rejected with a 422 client error
and no store call, while exactly-lowercase "lunch" is accepted unchanged.
The lowercasing in `normalize_meal_type` is unreachable-for-effect dead
code, contradicting its evident purpose. -/
theorem receipt_uppercase_meal_type_rejected :
    validateReceiptIn ⟨⟨2024, 3, 5⟩, "LUNCH", 25 / 2, Option.none, Option.none, Option.none⟩ =
      Except.error "String should match pattern (lunch|dinner)" ∧
    post_receipt_endpoint true emptyStore
        ⟨⟨2024, 3, 5⟩, "LUNCH", 25 / 2, Option.none, Option.none, Option.none⟩ =
      (Except.error ⟨422, "String should match pattern (lunch|dinner)"⟩, emptyStore, []) ∧
    validateReceiptIn ⟨⟨2024, 3, 5⟩, "lunch", 25 / 2, Option.none, Option.none, Option.none⟩ =
      Except.ok ⟨⟨2024, 3, 5⟩, "lunch", 25 / 2, Option.none, Option.none, Option.none⟩ := by
  refine ⟨by with_unfolding_all rfl, by with_unfolding_all rfl, by with_unfolding_all rfl⟩

/-- C2: whenever the `sum_amounts` RPC result is unusable for both tables
(data `None`, not a list, empty, or first row lacking a "sum" key), the
summary request still succeeds and `receipts_total` / `advances_total` are
the 2-decimal roundings of the in-process sums of the amounts of the rows
fetched within the month range. -/
theorem summary_fallback_in_process_sums (store : Store) (today : Date) (month : Option String)
    (st en : Date)
    (hp : parse_month today month = Except.ok (st, en))
    (hr : rpcUsable (store.rpc "receipts" st en) = false)
    (ha : rpcUsable (store.rpc "advances" st en) = false) :
    (monthly_summary true store today month).1 =
      Except.ok
        { month := fmtYM st
          receipts_total := round2 (inProcessReceiptsSum store st en)
          advances_total := round2 (inProcessAdvancesSum store st en)
          lunch_total := round2 (mealSum store st en "lunch")
          dinner_total := round2 (mealSum store st en "dinner")
          net := round2 (inProcessReceiptsSum store st en - inProcessAdvancesSum store st en) } := by
  simp [monthly_summary, hp, receiptsSumUsed, advancesSumUsed, hr, ha]

/-- Witness for C2: a store with one March 2024 receipt and an RPC that
always returns `None`. -/
theorem summary_fallback_in_process_sums_witness :
    (monthly_summary true fallbackStore ⟨2024, 5, 17⟩ (some "2024-03")).1 =
      Except.ok
        { month := fmtYM ⟨2024, 3, 1⟩
          receipts_total := round2 (inProcessReceiptsSum fallbackStore ⟨2024, 3, 1⟩ ⟨2024, 4, 1⟩)
          advances_total := round2 (inProcessAdvancesSum fallbackStore ⟨2024, 3, 1⟩ ⟨2024, 4, 1⟩)
          lunch_total := round2 (mealSum fallbackStore ⟨2024, 3, 1⟩ ⟨2024, 4, 1⟩ "lunch")
          dinner_total := round2 (mealSum fallbackStore ⟨2024, 3, 1⟩ ⟨2024, 4, 1⟩ "dinner")
          net := round2 (inProcessReceiptsSum fallbackStore ⟨2024, 3, 1⟩ ⟨2024, 4, 1⟩ -
            inProcessAdvancesSum fallbackStore ⟨2024, 3, 1⟩ ⟨2024, 4, 1⟩) } :=
  summary_fallback_in_process_sums fallbackStore ⟨2024, 5, 17⟩ (some "2024-03")
    ⟨2024, 3, 1⟩ ⟨2024, 4, 1⟩ rfl rfl rfl

/-- C3 counterexample: a fetched receipt row whose merchant column is
present but NULL renders as the string "None", not as the empty string,
refuting the claim that every missing-or-null field renders empty (here the
amount and note keys are absent and do render empty). -/
theorem csv_null_merchant_renders_None :
    exportCsvLines
        [[("date", PyVal.str "2024-03-05"), ("meal_type", PyVal.str "lunch"),
          ("merchant", PyVal.null)]] [] =
      [csvHeader, "receipt,2024-03-05,lunch,,None,"] ∧
    rowGet [("merchant", PyVal.null)] "merchant" = "None" ∧
    rowGet [("merchant", PyVal.null)] "merchant" ≠ "" := by
  refine ⟨by with_unfolding_all rfl, by with_unfolding_all rfl, by decide⟩

/-- C3 amended: every receipt in range becomes a row with type "receipt"
and its meal_type in the meal column, every advance a row with type
"advance" and empty meal and merchant columns; an absent field value
renders as the empty string, but a present null value renders as the
string "None". -/
theorem csv_rows_shape_absent_empty_null_None (r a : List Row) :
    exportCsvLines r a = csvHeader :: (r.map receiptLine ++ a.map advanceLine) ∧
    (∀ (row : Row) (k : String), lookupRow row k = Option.none → rowGet row k = "") ∧
    (∀ (row : Row) (k : String), lookupRow row k = some PyVal.null → rowGet row k = "None") := by
  refine ⟨rfl, ?_, ?_⟩ <;> intro row k h <;> simp [rowGet, h, pyStr]

/-- Witness for C3 amended: an absent key renders empty, a null date
renders as "None". -/
theorem csv_rows_shape_absent_empty_null_None_witness :
    rowGet [("merchant", PyVal.null)] "amount" = "" ∧
    rowGet [("date", PyVal.null)] "date" = "None" :=
  ⟨(csv_rows_shape_absent_empty_null_None [] []).2.1 [("merchant", PyVal.null)] "amount"
      (by with_unfolding_all rfl),
   (csv_rows_shape_absent_empty_null_None [] []).2.2 [("date", PyVal.null)] "date"
      (by with_unfolding_all rfl)⟩

/-- C4 counterexample: "2024-3" does not match the YYYY-MM shape the spec
names, yet `strptime` accepts a single-digit month, so `parse_month`
resolves it to March 2024 and the listing endpoint succeeds instead of
returning a client error. -/
theorem single_digit_month_accepted :
    isYYYYMM "2024-3" = false ∧
    parse_month ⟨2024, 5, 17⟩ (some "2024-3") = Except.ok (⟨2024, 3, 1⟩, ⟨2024, 4, 1⟩) ∧
    (list_receipts true emptyStore ⟨2024, 5, 17⟩ (some "2024-3")).1 = Except.ok [] := by
  refine ⟨rfl, rfl, by with_unfolding_all rfl⟩

/-- C4 amended: for any nonempty month string rejected by
`strptime("%Y-%m")` — four digits, a dash, then a one- or two-digit month
in 1..12, with year at least 1 — every month-scoped endpoint returns the
400 client error naming the expected format and issues no store query.
(Single-digit months such as "2024-3" are accepted despite not being
YYYY-MM, and an empty month string falls back to the current month.) -/
theorem malformed_month_uniform_client_error (store : Store) (today : Date) (s : String)
    (hne : ¬ s = "") (hbad : strptimeYM s = Option.none) :
    list_receipts true store today (some s) = (Except.error invalidMonthErr, []) ∧
    list_advances true store today (some s) = (Except.error invalidMonthErr, []) ∧
    monthly_summary true store today (some s) = (Except.error invalidMonthErr, []) ∧
    export_csv true store today (some s) = (Except.error invalidMonthErr, []) ∧
    invalidMonthErr.status = 400 := by
  have hp : parse_month today (some s) = Except.error invalidMonthErr := by
    rw [parse_month, if_neg hne, hbad]
  refine ⟨?_, ?_, ?_, ?_, rfl⟩ <;>
    simp [list_receipts, list_advances, monthly_summary, export_csv, hp]

/-- Witness for C4 amended at the malformed month string "2024-13". -/
theorem malformed_month_uniform_client_error_witness :
    list_receipts true emptyStore ⟨2024, 5, 17⟩ (some "2024-13") =
      (Except.error invalidMonthErr, []) ∧
    list_advances true emptyStore ⟨2024, 5, 17⟩ (some "2024-13") =
      (Except.error invalidMonthErr, []) ∧
    monthly_summary true emptyStore ⟨2024, 5, 17⟩ (some "2024-13") =
      (Except.error invalidMonthErr, []) ∧
    export_csv true emptyStore ⟨2024, 5, 17⟩ (some "2024-13") =
      (Except.error invalidMonthErr, []) ∧
    invalidMonthErr.status = 400 :=
  malformed_month_uniform_client_error emptyStore ⟨2024, 5, 17⟩ "2024-13" (by decide) rfl

/-- C5 counterexample: with RPC sums 0.024 (receipts) and 0.016 (advances)
the response carries receipts_total = advances_total = 0.02 but net = 0.01,
whereas rounding the difference of the already-rounded totals gives 0:
net is not `round(receipts_total - advances_total, 2)`. -/
theorem summary_net_differs_from_rounded_totals :
    (monthly_summary true rpcStore ⟨2024, 5, 17⟩ (some "2024-03")).1 =
      Except.ok
        { month := "2024-03", receipts_total := 1 / 50, advances_total := 1 / 50,
          lunch_total := 0, dinner_total := 0, net := 1 / 100 } ∧
    round2 ((1 : ℚ) / 50 - 1 / 50) = 0 ∧ ((1 : ℚ) / 100) ≠ 0 := by
  refine ⟨by with_unfolding_all rfl, by with_unfolding_all rfl, by norm_num⟩

/-- C5 amended: net is `round(receipts_sum - advances_sum, 2)` computed
from the unrounded per-table sums the endpoint used (RPC value or
in-process fallback), while receipts_total and advances_total are the
2-decimal roundings of those same sums; rounding the difference of the
rounded totals can differ from net by a cent. -/
theorem summary_net_rounds_unrounded_difference (store : Store) (today : Date)
    (month : Option String) (st en : Date) (out : Summary)
    (hp : parse_month today month = Except.ok (st, en))
    (h : (monthly_summary true store today month).1 = Except.ok out) :
    out.net = round2 (receiptsSumUsed store st en - advancesSumUsed store st en) ∧
    out.receipts_total = round2 (receiptsSumUsed store st en) ∧
    out.advances_total = round2 (advancesSumUsed store st en) := by
  simp [monthly_summary, hp] at h
  subst h
  exact ⟨rfl, rfl, rfl⟩

/-- Witness for C5 amended at the concrete RPC-backed store. -/
theorem summary_net_rounds_unrounded_difference_witness :
    (⟨"2024-03", 1 / 50, 1 / 50, 0, 0, 1 / 100⟩ : Summary).net =
      round2 (receiptsSumUsed rpcStore ⟨2024, 3, 1⟩ ⟨2024, 4, 1⟩ -
        advancesSumUsed rpcStore ⟨2024, 3, 1⟩ ⟨2024, 4, 1⟩) ∧
    (⟨"2024-03", 1 / 50, 1 / 50, 0, 0, 1 / 100⟩ : Summary).receipts_total =
      round2 (receiptsSumUsed rpcStore ⟨2024, 3, 1⟩ ⟨2024, 4, 1⟩) ∧
    (⟨"2024-03", 1 / 50, 1 / 50, 0, 0, 1 / 100⟩ : Summary).advances_total =
      round2 (advancesSumUsed rpcStore ⟨2024, 3, 1⟩ ⟨2024, 4, 1⟩) :=
  summary_net_rounds_unrounded_difference rpcStore ⟨2024, 5, 17⟩ (some "2024-03")
    ⟨2024, 3, 1⟩ ⟨2024, 4, 1⟩ ⟨"2024-03", 1 / 50, 1 / 50, 0, 0, 1 / 100⟩ rfl
    (by with_unfolding_all rfl)

/-- C8: when the store client is unset every data-touching endpoint returns
the 500 configuration error before any store operation (empty call log),
and the POST handlers leave the store contents unchanged. -/
theorem store_unset_uniform_server_error (store : Store) (today : Date) (month : Option String)
    (p : ReceiptIn) (q : AdvanceIn) :
    create_receipt false store p = (Except.error supabaseUnsetErr, store, []) ∧
    create_advance false store q = (Except.error supabaseUnsetErr, store, []) ∧
    list_receipts false store today month = (Except.error supabaseUnsetErr, []) ∧
    list_advances false store today month = (Except.error supabaseUnsetErr, []) ∧
    monthly_summary false store today month = (Except.error supabaseUnsetErr, []) ∧
    export_csv false store today month = (Except.error supabaseUnsetErr, []) ∧
    supabaseUnsetErr.status = 500 :=
  ⟨rfl, rfl, rfl, rfl, rfl, rfl, rfl⟩

/-- C9: an RPC result whose first row has a "sum" key with a NULL value
counts as usable: the corresponding total is 0.0 and the in-process
fallback select is not issued (the call log holds only the two RPC calls
and the two meal-breakdown selects). -/
theorem rpc_null_sum_usable_no_fallback (store : Store) (today : Date) (month : Option String)
    (st en : Date)
    (hp : parse_month today month = Except.ok (st, en))
    (hr : store.rpc "receipts" st en = RpcData.list [[("sum", Option.none)]])
    (ha : store.rpc "advances" st en = RpcData.list [[("sum", Option.none)]]) :
    monthly_summary true store today month =
      (Except.ok
        { month := fmtYM st
          receipts_total := 0
          advances_total := 0
          lunch_total := round2 (mealSum store st en "lunch")
          dinner_total := round2 (mealSum store st en "dinner")
          net := 0 },
       [StoreCall.rpcSum "receipts", StoreCall.rpcSum "advances",
        StoreCall.selectMealAmounts "lunch", StoreCall.selectMealAmounts "dinner"]) := by
  have hu : rpcUsable (RpcData.list [[("sum", Option.none)]]) = true := rfl
  have hv : rpcSumValue (RpcData.list [[("sum", Option.none)]]) = 0 := rfl
  have h0 : round2 0 = 0 := by with_unfolding_all rfl
  simp [monthly_summary, hp, receiptsSumUsed, advancesSumUsed, hr, ha, hu, hv, h0]

/-- Witness for C9 at a store whose RPC returns a NULL sum for both tables. -/
theorem rpc_null_sum_usable_no_fallback_witness :
    monthly_summary true nullSumStore ⟨2024, 5, 17⟩ (some "2024-03") =
      (Except.ok
        { month := fmtYM ⟨2024, 3, 1⟩
          receipts_total := 0
          advances_total := 0
          lunch_total := round2 (mealSum nullSumStore ⟨2024, 3, 1⟩ ⟨2024, 4, 1⟩ "lunch")
          dinner_total := round2 (mealSum nullSumStore ⟨2024, 3, 1⟩ ⟨2024, 4, 1⟩ "dinner")
          net := 0 },
       [StoreCall.rpcSum "receipts", StoreCall.rpcSum "advances",
        StoreCall.selectMealAmounts "lunch", StoreCall.selectMealAmounts "dinner"]) :=
  rpc_null_sum_usable_no_fallback nullSumStore ⟨2024, 5, 17⟩ (some "2024-03")
    ⟨2024, 3, 1⟩ ⟨2024, 4, 1⟩ rfl rfl rfl

end MealTracker
